import Mathlib

/-!
Verification development for the restbed WebSocket chat example
(`example/web_socket/source/example.cpp`).

The example is a single-file WebSocket broadcast server: a handshake
responder (`build_websocket_handshake_response_headers` with its
`base64_encode` helper over an SHA-1 digest), a process-wide registry
`sockets : map<string, shared_ptr<WebSocket>>`, a keepalive task
(`ping_handler`), an opcode dispatcher (`message_handler`), a close
notification handler (`close_handler`) and the `GET` method handler
(`get_method_handler`) that performs the upgrade and registers sessions.

The embedding below is shallow: bytes are `Nat` (< 256), 32-bit machine
words are `Nat` reduced `% 4294967296` where overflow matters, the
registry is an association list with unique keys, and the side effects of
each handler (sends, transport closes, scheduling, logging) are returned
as an explicit list of actions together with the updated registry.
-/

namespace WebSocketExample

/-- 2^32, the modulus for 32-bit word arithmetic in SHA-1. -/
def w32 : Nat := 4294967296

/-- Left rotation of a 32-bit word by `k` bits (0 < k < 32). -/
def rotl (k n : Nat) : Nat := ((n <<< k) ||| (n >>> (32 - k))) % w32

/-- SHA-1 round function `f_t(b,c,d)` (FIPS 180-4); bitwise NOT is XOR with
the all-ones 32-bit word. -/
def sha1_f (t b c d : Nat) : Nat :=
  if t < 20 then (b &&& c) ||| ((b ^^^ 4294967295) &&& d)
  else if t < 40 then b ^^^ c ^^^ d
  else if t < 60 then (b &&& c) ||| (b &&& d) ||| (c &&& d)
  else b ^^^ c ^^^ d

/-- SHA-1 round constant `K_t` (FIPS 180-4). -/
def sha1_k (t : Nat) : Nat :=
  if t < 20 then 1518500249
  else if t < 40 then 1859775393
  else if t < 60 then 2400959708
  else 3395469782

/-- SHA-1 state: the five 32-bit chaining words `h0..h4`. -/
structure Sha1State where
  h0 : Nat
  h1 : Nat
  h2 : Nat
  h3 : Nat
  h4 : Nat
deriving Repr, DecidableEq

/-- Initial SHA-1 chaining values (FIPS 180-4). -/
def sha1_init : Sha1State := ⟨1732584193, 4023233417, 2562383102, 271733878, 3285377520⟩

/-- Expand the sixteen 32-bit words of one block to the eighty-word
message schedule `W_0..W_79`. -/
def sha1_schedule (ws : List Nat) : List Nat :=
  (List.range 80).foldl
    (fun acc t =>
      if t < 16 then acc ++ [ws.getD t 0]
      else acc ++ [rotl 1 (acc.getD (t - 3) 0 ^^^ acc.getD (t - 8) 0 ^^^
                           acc.getD (t - 14) 0 ^^^ acc.getD (t - 16) 0)])
    []

/-- One SHA-1 compression: run the eighty rounds over a block's message
schedule and add the result into the chaining state, all mod 2^32. -/
def sha1_compress (st : Sha1State) (ws : List Nat) : Sha1State :=
  let w := sha1_schedule ws
  let r := (List.range 80).foldl
    (fun (v : Nat × Nat × Nat × Nat × Nat) t =>
      let a := v.1; let b := v.2.1; let c := v.2.2.1; let d := v.2.2.2.1; let e := v.2.2.2.2
      let temp := (rotl 5 a + sha1_f t b c d + e + sha1_k t + w.getD t 0) % w32
      (temp, a, rotl 30 b, c, d))
    (st.h0, st.h1, st.h2, st.h3, st.h4)
  ⟨(st.h0 + r.1) % w32, (st.h1 + r.2.1) % w32, (st.h2 + r.2.2.1) % w32,
   (st.h3 + r.2.2.2.1) % w32, (st.h4 + r.2.2.2.2) % w32⟩

/-- Merkle–Damgård padding for SHA-1: append `0x80`, zero bytes up to
56 mod 64, then the bit length as eight big-endian bytes. -/
def sha1_pad (msg : List Nat) : List Nat :=
  let len := msg.length
  let zeros := (64 - ((len + 9) % 64)) % 64
  let bitlen := len * 8
  msg ++ [128] ++ List.replicate zeros 0 ++
    [(bitlen >>> 56) % 256, (bitlen >>> 48) % 256, (bitlen >>> 40) % 256,
     (bitlen >>> 32) % 256, (bitlen >>> 24) % 256, (bitlen >>> 16) % 256,
     (bitlen >>> 8) % 256, bitlen % 256]

/-- Split a padded byte list into its sixteen-word (big-endian) blocks. -/
def sha1_blocks (padded : List Nat) : List (List Nat) :=
  (List.range (padded.length / 64)).map fun i =>
    (List.range 16).map fun j =>
      (padded.getD (64 * i + 4 * j) 0) <<< 24 |||
      (padded.getD (64 * i + 4 * j + 1) 0) <<< 16 |||
      (padded.getD (64 * i + 4 * j + 2) 0) <<< 8 |||
      (padded.getD (64 * i + 4 * j + 3) 0)

/-- Serialize a 32-bit word to four big-endian bytes. -/
def word_bytes (n : Nat) : List Nat :=
  [(n >>> 24) % 256, (n >>> 16) % 256, (n >>> 8) % 256, n % 256]

/-- `SHA1` from `<openssl/sha.h>` as used at line 64 of the example:
the 20-byte SHA-1 digest of a byte list. -/
def SHA1 (msg : List Nat) : List Nat :=
  let st := ((sha1_blocks (sha1_pad msg)).foldl sha1_compress sha1_init)
  word_bytes st.h0 ++ word_bytes st.h1 ++ word_bytes st.h2 ++
  word_bytes st.h3 ++ word_bytes st.h4

/-- The standard base64 alphabet, as produced by OpenSSL `BIO_f_base64`. -/
def b64chars : List Char :=
  "ABCDEFGHIJKLMNOPQRSTUVWXYZabcdefghijklmnopqrstuvwxyz0123456789+/".toList

/-- Encode one group of at most three input bytes into four base64
characters, padding with `=`. -/
def base64_group (g : List Nat) : List Char :=
  match g with
  | [a] => [b64chars.getD (a >>> 2) 'A',
            b64chars.getD ((a &&& 3) <<< 4) 'A', '=', '=']
  | [a, b] => [b64chars.getD (a >>> 2) 'A',
               b64chars.getD (((a &&& 3) <<< 4) ||| (b >>> 4)) 'A',
               b64chars.getD ((b &&& 15) <<< 2) 'A', '=']
  | [a, b, c] => [b64chars.getD (a >>> 2) 'A',
                  b64chars.getD (((a &&& 3) <<< 4) ||| (b >>> 4)) 'A',
                  b64chars.getD ((((b &&& 15) <<< 2) ||| (c >>> 6))) 'A',
                  b64chars.getD (c &&& 63) 'A']
  | _ => []

/-- `base64_encode` (example.cpp lines 37-56): base64 of the input bytes
via an OpenSSL `BIO_f_base64` chain. The C++ copies `bptr->length - 1`
bytes, dropping the trailing newline the BIO appends, so the result is
plain base64 with `=` padding and no line break. -/
def base64_encode (input : List Nat) : String :=
  String.mk (((List.range ((input.length + 2) / 3)).map
    (fun i => base64_group ((input.drop (3 * i)).take 3))).flatten)

/-- UTF-8 bytes of a string; all strings involved in the handshake are
ASCII, for which the code point is the byte. -/
def str_bytes (s : String) : List Nat := s.toList.map fun c => c.toNat

/-- An HTTP request as seen by the method handler: its header multimap.
Only header lookup is used by the example. -/
structure Request where
  headers : List (String × String)
deriving Repr, DecidableEq

/-- Modelled from the spec: `restbed::Request::get_header` (the request
object "exposing header lookup" of the spec's external interfaces; the
class itself is library code outside the example file). It returns the
stored value for the name, and the empty string when the header is
absent — which is what line 60's unconditional `key.append(...)`
relies on. -/
def Request.get_header (r : Request) (name : String) : String :=
  (r.headers.lookup name).getD ""

/-- A WebSocket connection handle: its registry key (`get_key`) and
whether the transport reports it open (`is_open`). -/
structure WebSocket where
  key : String
  is_open : Bool
deriving Repr, DecidableEq

/-- The process-wide registry `map< string, shared_ptr< WebSocket > > sockets`
(line 35), embedded as an association list; `std::map` key uniqueness is
carried as a `Nodup` hypothesis on the key column where a claim needs it. -/
abbrev Registry := List (String × WebSocket)

/-- `sockets.insert(make_pair(key, socket))` (line 183): `std::map::insert`
leaves the map unchanged when the key is already present (the insertion
fails; the ignored return value would report it), otherwise adds the
pair. -/
def map_insert (m : Registry) (k : String) (v : WebSocket) : Registry :=
  if (m.lookup k).isSome then m else m ++ [(k, v)]

/-- `sockets.erase(key)` (lines 77 and 102): drop the entry with the given
key, a no-op when the key is absent. -/
def map_erase (m : Registry) (k : String) : Registry :=
  m.filter fun e => e.1 != k

/-- Opcode constants of `restbed::WebSocketMessage::OpCode`, with the
WebSocket protocol wire values (the spec's "small integer tag"). -/
def TEXT_FRAME : Nat := 1

/-- Binary frame opcode. -/
def BINARY_FRAME : Nat := 2

/-- Close frame opcode. -/
def CONNECTION_CLOSE_FRAME : Nat := 8

/-- Ping frame opcode. -/
def PING_FRAME : Nat := 9

/-- Pong frame opcode. -/
def PONG_FRAME : Nat := 10

/-- A decoded WebSocket frame: opcode and payload bytes. -/
structure WebSocketMessage where
  opcode : Nat
  data : List Nat
deriving Repr, DecidableEq

/-- One observable side effect of a handler. Registry updates are returned
separately as the new registry value. The `errorSignal` constructor
exists for the spec's error taxonomy (`InvalidHandshake`, `DuplicateKey`);
no code path of the example constructs it. -/
inductive Action where
  /-- `destination->send( message )`: relay a frame to the session with
  the given key. -/
  | sendMessage (destKey : String) (msg : WebSocketMessage)
  /-- `socket->send( PING_FRAME / PONG_FRAME )`: send a control frame. -/
  | sendControl (destKey : String) (opcode : Nat)
  /-- `socket->send( "...", completion )`: send a text payload. -/
  | sendText (destKey : String) (payload : String)
  /-- `socket->close( )`: close the underlying transport. -/
  | closeTransport (key : String)
  /-- `service->schedule( ping_handler, delay )`: re-arm the keepalive
  task after the given delay in milliseconds. -/
  | schedule (delayMs : Nat)
  /-- `fprintf( stderr, ... )`: a log line (text abbreviated where the
  C++ interpolates payload bytes). -/
  | log (line : String)
  /-- An error surfaced to the caller; never produced by the example. -/
  | errorSignal (name : String)
deriving Repr, DecidableEq

/-- Whether an action closes the transport. -/
def Action.isCloseTransport : Action → Bool
  | .closeTransport _ => true
  | _ => false

/-- Whether an action signals an error. -/
def Action.isError : Action → Bool
  | .errorSignal _ => true
  | _ => false

/-- The frame relays (`destination->send( message )`) among a handler's
actions, as (destination key, frame) pairs. -/
def message_sends (acts : List Action) : List (String × WebSocketMessage) :=
  acts.filterMap fun a =>
    match a with
    | .sendMessage k m => some (k, m)
    | _ => none

/-- The protocol GUID appended to the client key at line 61. -/
def websocket_guid : String := "258EAFA5-E914-47DA-95CA-C5AB0DC85B11"

/-- `build_websocket_handshake_response_headers` (lines 58-72): read the
`Sec-WebSocket-Key` header, append the GUID, SHA-1 the bytes, and emit the
three response headers with the base64 digest as the accept value. -/
def build_websocket_handshake_response_headers (request : Request) :
    List (String × String) :=
  let key := (request.get_header "Sec-WebSocket-Key") ++ websocket_guid
  let hash := SHA1 (str_bytes key)
  [("Upgrade", "websocket"), ("Connection", "Upgrade"),
   ("Sec-WebSocket-Accept", base64_encode hash)]

/-- `close_handler` (lines 74-80): erase the socket's key from the
registry and log. -/
def close_handler (sockets : Registry) (socket : WebSocket) :
    Registry × List Action :=
  (map_erase sockets socket.key,
   [Action.log ("Closed connection to " ++ socket.key ++ ".")])

/-- The re-schedule delay of the keepalive task: `milliseconds( 5000 )`
at line 106. -/
def ping_reschedule_delay_ms : Nat := 5000

/-- The initial keepalive delay scheduled by `main`: `seconds( 5000 )` at
line 210, expressed in milliseconds. -/
def initial_ping_delay_ms : Nat := 5000 * 1000

/-- `ping_handler` (lines 88-107): walk the registry entries, pinging open
sessions and closing-and-erasing the rest, then re-schedule itself.
Caution: this embedding assigns the loop defined snapshot semantics (it
folds over the entry sequence present at loop entry, applying erasures
to the accumulated registry), which the C++ does not guarantee — the
range-`for` erases the visited entry from the live `std::map` at line
102, invalidating the active iterator (`ping_sweep_erases_while_iterating`
is the condition under which that happens). This embedding is therefore
relied on only where the iteration/erasure semantics are immaterial: the
unconditional re-schedule action, and evaluation on registries whose
behavior is being exhibited concretely. -/
def ping_handler (sockets : Registry) : Registry × List Action :=
  let r := sockets.foldl
    (fun (acc : Registry × List Action) entry =>
      if entry.2.is_open then
        (acc.1, acc.2 ++ [Action.sendControl entry.1 PING_FRAME])
      else
        (map_erase acc.1 entry.1, acc.2 ++ [Action.closeTransport entry.1]))
    (sockets, [])
  (r.1, r.2 ++ [Action.schedule ping_reschedule_delay_ms])

/-- Line 102 (`sockets.erase( key )`) runs inside the range-`for` over
`sockets` itself exactly when some visited session is not open: the loop
erases an entry of the very map being iterated, and no copy of the map is
taken before the loop. -/
def ping_sweep_erases_while_iterating (sockets : Registry) : Bool :=
  sockets.any fun entry => !entry.2.is_open

/-- The keys passed to `sockets.erase( key )` at line 102 during one
keepalive sweep: the keys of the visited entries that are not open. -/
def ping_sweep_erased_keys (sockets : Registry) : List String :=
  (sockets.filter (fun e => !e.2.is_open)).map Prod.fst

/-- `message_handler` (lines 109-160): Ping is answered with a Pong to
the source, Pong is ignored, Close invokes `close_handler` directly, and
every other opcode falls to the broadcast branch, which relays the frame
to each registry entry whose key differs from the source key. -/
def message_handler (sockets : Registry) (source : WebSocket)
    (message : WebSocketMessage) : Registry × List Action :=
  let opcode := message.opcode
  if opcode = PING_FRAME then
    (sockets, [Action.sendControl source.key PONG_FRAME])
  else if opcode = PONG_FRAME then
    (sockets, [])
  else if opcode = CONNECTION_CLOSE_FRAME then
    close_handler sockets source
  else
    (sockets,
     Action.log ("Received message from " ++ source.key) ::
     sockets.foldl
       (fun acc entry =>
         if entry.1 ≠ source.key then
           acc ++ [Action.sendMessage entry.1 message]
         else acc)
       [])

/-- `restbed::SWITCHING_PROTOCOLS` (HTTP 101), the status passed to
`session->upgrade` at line 172. -/
def SWITCHING_PROTOCOLS : Nat := 101

/-- Outcome of the GET method handler: either an upgrade request handed
to the transport, or a rejection of the handshake. The rejection
constructor exists for the spec's `InvalidHandshake` taxonomy (the
commented-out `session->close( BAD_REQUEST )` of line 196 would produce
it); the live code never does. -/
inductive HandlerResult where
  | upgrade (status : Nat) (headers : List (String × String))
  | reject (error : String)
deriving Repr, DecidableEq

/-- Whether the handler outcome rejects the handshake. -/
def HandlerResult.isReject : HandlerResult → Bool
  | .reject _ => true
  | .upgrade _ _ => false

/-- `get_method_handler` (lines 162-197), up to the `session->upgrade`
call: the header checks of lines 166-169 are commented out, so the
handshake headers are built and the upgrade is requested unconditionally,
for every request. -/
def get_method_handler (request : Request) : HandlerResult :=
  HandlerResult.upgrade SWITCHING_PROTOCOLS
    (build_websocket_handshake_response_headers request)

/-- The completion continuation of the welcome send (lines 180-186):
insert the socket under its key and log. The return value of
`std::map::insert` is ignored by the code, so a failed insertion is
silent. -/
def welcome_completion (sockets : Registry) (socket : WebSocket) :
    Registry × List Action :=
  (map_insert sockets socket.key socket,
   [Action.log ("Sent welcome message to " ++ socket.key ++ ".")])

/-- The upgrade continuation (lines 172-192): when the socket is open,
the handlers are attached and the welcome text is sent (its completion is
`welcome_completion`); the registry is not touched here. When the socket
is not open, only the failure log line is produced. -/
def upgrade_callback (sockets : Registry) (socket : WebSocket) :
    Registry × List Action :=
  if socket.is_open then
    (sockets, [Action.sendText socket.key "Welcome to Corvusoft Chat!"])
  else
    (sockets, [Action.log "WebSocket Negotiation Failed: Client closed connection."])

/-- A whole join attempt: the upgrade continuation followed, when the
socket was open and the welcome write completed, by the send-completion
continuation. `send_ok` is the transport's completion of the welcome
write (modelled from the spec: "only upon that send's completion is the
session inserted into the Registry" — the completion dispatch itself is
library code outside the example file). -/
def session_join (sockets : Registry) (socket : WebSocket) (send_ok : Bool) :
    Registry × List Action :=
  let r := upgrade_callback sockets socket
  if socket.is_open && send_ok then
    let w := welcome_completion r.1 socket
    (w.1, r.2 ++ w.2)
  else
    (r.1, r.2)

/-! ## Helper lemmas -/

/-- With unique keys, a predicate that holds for the member `x` and only
for entries carrying the key of `x` is satisfied exactly once. -/
theorem countP_eq_one_of_key {R : Registry} (hnd : (R.map Prod.fst).Nodup)
    {x : String × WebSocket} (hx : x ∈ R) {p : String × WebSocket → Bool}
    (hpx : p x = true) (himp : ∀ e ∈ R, p e = true → e.1 = x.1) :
    R.countP p = 1 := by
  apply Nat.le_antisymm
  · calc R.countP p ≤ R.countP (fun e => e.1 == x.1) := by
          apply List.countP_mono_left
          intro e he hpe
          simpa using himp e he hpe
      _ = (R.map Prod.fst).count x.1 := by
          rw [List.count_eq_countP, List.countP_map]
          rfl
      _ = 1 := List.count_eq_one_of_mem hnd (List.mem_map_of_mem Prod.fst hx)
  · have hpos : 0 < R.countP p := List.countP_pos_iff.mpr ⟨x, hx, hpx⟩
    omega

/-- The entries whose key differs from `k` and the entries whose key is
`k` partition the registry. -/
theorem countP_bne_add (R : Registry) (k : String) :
    R.countP (fun e => e.1 != k) + R.countP (fun e => e.1 == k)
      = R.length := by
  induction R with
  | nil => rfl
  | cons e R ih =>
    rw [List.countP_cons, List.countP_cons, List.length_cons]
    cases h : e.1 == k
    · have hb : (e.1 != k) = true := by simp [bne, h]
      simp [h, hb]
      omega
    · have hb : (e.1 != k) = false := by simp [bne, h]
      simp [h, hb]
      omega

/-- The broadcast loop of `message_handler` appends one relay per entry
whose key differs from the source key, in registry order. -/
theorem broadcast_foldl (R : Registry) (src : String) (m : WebSocketMessage)
    (acc : List Action) :
    R.foldl
      (fun acc entry =>
        if entry.1 ≠ src then acc ++ [Action.sendMessage entry.1 m] else acc)
      acc
    = acc ++ (R.filter (fun e => e.1 != src)).map
        (fun e => Action.sendMessage e.1 m) := by
  induction R generalizing acc with
  | nil => simp
  | cons e R ih =>
    rw [List.foldl_cons]
    by_cases h : e.1 = src
    · rw [if_neg (not_not_intro h), ih, List.filter_cons,
        if_neg (by simp [h])]
    · rw [if_pos h, ih, List.filter_cons, if_pos (by simpa using h)]
      simp

/-- Dropping a leading log action does not change the extracted relays. -/
theorem message_sends_cons_log (s : String) (acts : List Action) :
    message_sends (Action.log s :: acts) = message_sends acts := by
  simp [message_sends, List.filterMap_cons]

/-- The relays extracted from a list of `sendMessage` actions are the
(key, frame) pairs themselves. -/
theorem message_sends_map_send (l : List (String × WebSocket))
    (m : WebSocketMessage) :
    message_sends (l.map fun e => Action.sendMessage e.1 m)
      = l.map fun e => (e.1, m) := by
  induction l with
  | nil => rfl
  | cons e l ih =>
    simp only [List.map_cons, message_sends, List.filterMap_cons] at ih ⊢
    rw [ih]

/-- Any frame whose opcode is none of Ping, Pong and Close reaches the
broadcast branch of `message_handler`: the registry is returned
unchanged and the frame is relayed to each entry whose key differs from
the source key, after the log line. -/
theorem message_handler_else (R : Registry) (src : WebSocket)
    (m : WebSocketMessage) (hp : m.opcode ≠ PING_FRAME)
    (hq : m.opcode ≠ PONG_FRAME) (hc : m.opcode ≠ CONNECTION_CLOSE_FRAME) :
    message_handler R src m
      = (R, Action.log ("Received message from " ++ src.key)
            :: (R.filter (fun e => e.1 != src.key)).map
                 (fun e => Action.sendMessage e.1 m)) := by
  simp only [message_handler]
  rw [if_neg hp, if_neg hq, if_neg hc, broadcast_foldl]
  simp

/-! ## Claim theorems -/

set_option maxRecDepth 400000 in
/-- C1: for every handshake request carrying a `Sec-WebSocket-Key`
header, the computed `Sec-WebSocket-Accept` value equals the base64
encoding of the SHA-1 digest of the key concatenated with the GUID
`258EAFA5-E914-47DA-95CA-C5AB0DC85B11`; it is deterministic (equal keys
give equal accept values); and the RFC 6455 sample key
`dGhlIHNhbXBsZSBub25jZQ==` yields `s3pPLMBiTxaQ9kYGzzhZRbK+xOo=`. -/
theorem handshake_accept_correct :
    (∀ request : Request,
      (build_websocket_handshake_response_headers request).lookup
          "Sec-WebSocket-Accept"
        = some (base64_encode (SHA1 (str_bytes
            (request.get_header "Sec-WebSocket-Key" ++ websocket_guid))))) ∧
    (∀ r1 r2 : Request,
      r1.get_header "Sec-WebSocket-Key" = r2.get_header "Sec-WebSocket-Key" →
      (build_websocket_handshake_response_headers r1).lookup
          "Sec-WebSocket-Accept"
        = (build_websocket_handshake_response_headers r2).lookup
          "Sec-WebSocket-Accept") ∧
    (build_websocket_handshake_response_headers
        ⟨[("Sec-WebSocket-Key", "dGhlIHNhbXBsZSBub25jZQ==")]⟩).lookup
        "Sec-WebSocket-Accept"
      = some "s3pPLMBiTxaQ9kYGzzhZRbK+xOo=" := by
  refine ⟨fun request => rfl, fun r1 r2 h => ?_, ?_⟩
  · unfold build_websocket_handshake_response_headers
    rw [h]
  · decide

/-- Witness for `handshake_accept_correct`: two concrete requests that
carry the same key receive the same accept value. -/
theorem handshake_accept_correct_witness :
    (build_websocket_handshake_response_headers
        ⟨[("Sec-WebSocket-Key", "abc")]⟩).lookup "Sec-WebSocket-Accept"
      = (build_websocket_handshake_response_headers
          ⟨[("Host", "example.net"), ("Sec-WebSocket-Key", "abc")]⟩).lookup
        "Sec-WebSocket-Accept" :=
  handshake_accept_correct.2.1 ⟨[("Sec-WebSocket-Key", "abc")]⟩
    ⟨[("Host", "example.net"), ("Sec-WebSocket-Key", "abc")]⟩ rfl

/-- C2 counterexample: a request without a `Sec-WebSocket-Key` header is
not rejected — the header lookup yields the empty string and the handler
still requests the protocol upgrade, contradicting the claim that the
upgrade is rejected with an `InvalidHandshake` error. -/
theorem missing_key_not_rejected :
    ((⟨[]⟩ : Request).get_header "Sec-WebSocket-Key" = "") ∧
    (get_method_handler ⟨[]⟩).isReject = false ∧
    get_method_handler ⟨[]⟩
      = HandlerResult.upgrade SWITCHING_PROTOCOLS
          (build_websocket_handshake_response_headers ⟨[]⟩) :=
  ⟨rfl, rfl, rfl⟩

/-- C2 (amended): the handler performs no nonce validation at all — for
every request, including one with the header absent, it never rejects,
always requests the upgrade with the computed headers (the accept value
of a keyless request is derived from the empty string and the GUID), and
an open session is then registered exactly as for any other request. -/
theorem missing_key_upgrade_proceeds :
    (∀ request : Request,
      (get_method_handler request).isReject = false ∧
      get_method_handler request
        = HandlerResult.upgrade SWITCHING_PROTOCOLS
            (build_websocket_handshake_response_headers request)) ∧
    ((build_websocket_handshake_response_headers ⟨[]⟩).lookup
        "Sec-WebSocket-Accept"
      = some (base64_encode (SHA1 (str_bytes ("" ++ websocket_guid))))) ∧
    (∀ (R : Registry) (k : String),
      (session_join R ⟨k, true⟩ true).1 = map_insert R k ⟨k, true⟩) := by
  refine ⟨fun request => ⟨rfl, rfl⟩, rfl, fun R k => rfl⟩

/-- C5: the claim says the initial and recurring keepalive delays are
both 5000 ms; the code schedules the first run with `seconds( 5000 )`,
i.e. 5 000 000 ms, and every later run with `milliseconds( 5000 )`. The
self-re-scheduling itself is unconditional: every run's action list
contains the re-arm with the recurring delay. -/
theorem keepalive_schedule_delays :
    initial_ping_delay_ms = 5000000 ∧
    ping_reschedule_delay_ms = 5000 ∧
    initial_ping_delay_ms ≠ ping_reschedule_delay_ms ∧
    (∀ R : Registry,
      Action.schedule ping_reschedule_delay_ms ∈ (ping_handler R).2) := by
  refine ⟨rfl, rfl, by decide, fun R => ?_⟩
  simp [ping_handler]

/-- C8: the keepalive sweep does not iterate a snapshot — on the given
registry (one non-open session, one open) the loop erases the entry the
range-`for` is currently visiting from the very map being iterated
(`ping_sweep_erases_while_iterating` is the condition under which line
102 fires inside the loop), which invalidates the active `std::map`
iterator in C++. -/
theorem keepalive_iterates_live_map :
    ping_sweep_erases_while_iterating
        [("a", ⟨"a", false⟩), ("b", ⟨"b", true⟩)] = true ∧
    (ping_handler [("a", ⟨"a", false⟩), ("b", ⟨"b", true⟩)]).1
      = [("b", ⟨"b", true⟩)] := by
  exact ⟨rfl, rfl⟩

/-- C9: a session is registered only by the send-completion continuation
of the welcome message: the upgrade continuation never touches the
registry; a not-open socket only logs the negotiation failure (no
registration, for either completion outcome); an open socket whose
welcome send does not complete is not registered; and an open socket
whose welcome send completes is inserted by the completion. -/
theorem registration_only_after_welcome :
    (∀ (R : Registry) (s : WebSocket), (upgrade_callback R s).1 = R) ∧
    (∀ (R : Registry) (k : String) (ok : Bool),
      session_join R ⟨k, false⟩ ok
        = (R, [Action.log
            "WebSocket Negotiation Failed: Client closed connection."])) ∧
    (∀ (R : Registry) (k : String), (session_join R ⟨k, true⟩ false).1 = R) ∧
    (∀ (R : Registry) (k : String),
      session_join R ⟨k, true⟩ true
        = (map_insert R k ⟨k, true⟩,
           [Action.sendText k "Welcome to Corvusoft Chat!",
            Action.log ("Sent welcome message to " ++ k ++ ".")])) := by
  refine ⟨fun R s => ?_, fun R k ok => rfl, fun R k => rfl, fun R k => rfl⟩
  obtain ⟨k, o⟩ := s
  cases o <;> rfl

/-- C6 counterexample: dispatching a Close frame from the registered
session `a` removes it from the registry immediately, yet the action
list is a single log line — no transport-close action is issued by the
dispatcher, so the removal is not triggered by a transport close. -/
theorem close_frame_without_transport_close :
    (message_handler [("a", ⟨"a", true⟩)] ⟨"a", true⟩
        ⟨CONNECTION_CLOSE_FRAME, []⟩).1 = [] ∧
    (message_handler [("a", ⟨"a", true⟩)] ⟨"a", true⟩
        ⟨CONNECTION_CLOSE_FRAME, []⟩).2
      = [Action.log "Closed connection to a."] ∧
    ((message_handler [("a", ⟨"a", true⟩)] ⟨"a", true⟩
        ⟨CONNECTION_CLOSE_FRAME, []⟩).2.all
      (fun a => !a.isCloseTransport)) = true := by
  refine ⟨rfl, by decide, by decide⟩

/-- C6 (amended): on a frame with the Close opcode the dispatcher invokes
`close_handler` directly: the session's key is erased from the registry
at once, the only action is the close log line, and in particular no
transport close is issued by the dispatcher. -/
theorem close_frame_direct_removal (R : Registry) (src : WebSocket)
    (m : WebSocketMessage) (hop : m.opcode = CONNECTION_CLOSE_FRAME) :
    message_handler R src m = close_handler R src ∧
    (message_handler R src m).1 = map_erase R src.key ∧
    ((message_handler R src m).2.all (fun a => !a.isCloseTransport)) = true := by
  have h1 : message_handler R src m = close_handler R src := by
    simp only [message_handler]
    rw [hop]
    rfl
  exact ⟨h1, by rw [h1]; rfl, by rw [h1]; rfl⟩

/-- Witness for `close_frame_direct_removal` at a concrete registry. -/
theorem close_frame_direct_removal_witness :
    message_handler [("a", ⟨"a", true⟩), ("b", ⟨"b", true⟩)] ⟨"a", true⟩
        ⟨CONNECTION_CLOSE_FRAME, [1]⟩
      = close_handler [("a", ⟨"a", true⟩), ("b", ⟨"b", true⟩)] ⟨"a", true⟩ :=
  (close_frame_direct_removal _ _ _ rfl).1

/-- C7 counterexample: with `k` already mapped to the session
`⟨k, true⟩`, running the welcome completion for a second session
`⟨k, false⟩` with the same key keeps the original entry (no overwrite,
still exactly one entry) but signals nothing: the only action is the
success log line, so no `DuplicateKey` error is raised. -/
theorem duplicate_insert_silent :
    (welcome_completion [("k", ⟨"k", true⟩)] ⟨"k", false⟩).1
      = [("k", ⟨"k", true⟩)] ∧
    (welcome_completion [("k", ⟨"k", true⟩)] ⟨"k", false⟩).2
      = [Action.log "Sent welcome message to k."] ∧
    ((welcome_completion [("k", ⟨"k", true⟩)] ⟨"k", false⟩).2.all
      (fun a => !a.isError)) = true := by
  refine ⟨by decide, by decide, by decide⟩

/-- C7 (amended): inserting a session under an already-present key is
silently ignored: the registry is unchanged — the original entry is
kept, never overwritten, so the colliding join attempts leave exactly
one entry under the key — and no `DuplicateKey` error is signalled; the
completion only logs its success line. -/
theorem duplicate_insert_keeps_original (R : Registry) (s : WebSocket)
    (hdup : (R.lookup s.key).isSome = true) :
    (welcome_completion R s).1 = R ∧
    (welcome_completion R s).2
      = [Action.log ("Sent welcome message to " ++ s.key ++ ".")] ∧
    ((welcome_completion R s).2.all (fun a => !a.isError)) = true := by
  refine ⟨?_, rfl, rfl⟩
  simp [welcome_completion, map_insert, hdup]

/-- Witness for `duplicate_insert_keeps_original`: a concrete duplicate
insertion leaves the registry as it was. -/
theorem duplicate_insert_keeps_original_witness :
    (welcome_completion [("k", ⟨"k", true⟩)] ⟨"k", false⟩).1
      = [("k", ⟨"k", true⟩)] :=
  (duplicate_insert_keeps_original [("k", ⟨"k", true⟩)] ⟨"k", false⟩
    (by decide)).1

/-- C10: every frame whose opcode is not Ping, Pong or Close falls to
the catch-all broadcast branch: the registry is unchanged, the frame
itself is relayed once to each entry whose key differs from the source
key — the same recipients, in the same order, as a Text frame with the
same payload — and nothing is rejected or ignored and no error is
signalled. -/
theorem non_control_frames_broadcast (R : Registry) (src : WebSocket)
    (m : WebSocketMessage) (hp : m.opcode ≠ PING_FRAME)
    (hq : m.opcode ≠ PONG_FRAME) (hc : m.opcode ≠ CONNECTION_CLOSE_FRAME) :
    (message_handler R src m).1 = R ∧
    message_sends (message_handler R src m).2
      = (R.filter (fun e => e.1 != src.key)).map (fun e => (e.1, m)) ∧
    (message_sends (message_handler R src m).2).map Prod.fst
      = (message_sends (message_handler R src
          ⟨TEXT_FRAME, m.data⟩).2).map Prod.fst ∧
    ((message_handler R src m).2.all (fun a => !a.isError)) = true := by
  have h1 := message_handler_else R src m hp hq hc
  have hm : (⟨TEXT_FRAME, m.data⟩ : WebSocketMessage).opcode = TEXT_FRAME := rfl
  have h2 := message_handler_else R src ⟨TEXT_FRAME, m.data⟩
    (by rw [hm]; decide) (by rw [hm]; decide) (by rw [hm]; decide)
  have hs1 : message_sends (message_handler R src m).2
      = (R.filter (fun e => e.1 != src.key)).map (fun e => (e.1, m)) := by
    rw [h1, message_sends_cons_log, message_sends_map_send]
  have hs2 : message_sends (message_handler R src ⟨TEXT_FRAME, m.data⟩).2
      = (R.filter (fun e => e.1 != src.key)).map
          (fun e => (e.1, (⟨TEXT_FRAME, m.data⟩ : WebSocketMessage))) := by
    rw [h2, message_sends_cons_log, message_sends_map_send]
  refine ⟨by rw [h1], hs1, ?_, ?_⟩
  · rw [hs1, hs2, List.map_map, List.map_map]
    rfl
  · rw [h1]
    simp only [List.all_cons, Bool.and_eq_true, List.all_eq_true]
    refine ⟨rfl, ?_⟩
    intro a ha
    obtain ⟨e, _, rfl⟩ := List.mem_map.mp ha
    rfl

/-- C3: with session A registered among other sessions (keys unique),
dispatching a Text or Binary frame from A relays it once to each entry
whose key differs from A's and to nothing else: the relays are exactly
the other entries in registry order, their number is the number of other
sessions, none is directed at A, each other session receives the frame
exactly once, the registry is unchanged, and no error is signalled —
including the case of no other sessions, where nothing is sent. -/
theorem broadcast_exactly_others (R : Registry) (src : WebSocket)
    (m : WebSocketMessage) (hnd : (R.map Prod.fst).Nodup)
    (hmem : (src.key, src) ∈ R)
    (hop : m.opcode = TEXT_FRAME ∨ m.opcode = BINARY_FRAME) :
    (message_handler R src m).1 = R ∧
    message_sends (message_handler R src m).2
      = (R.filter (fun e => e.1 != src.key)).map (fun e => (e.1, m)) ∧
    (message_sends (message_handler R src m).2).length = R.length - 1 ∧
    (∀ p ∈ message_sends (message_handler R src m).2, p.1 ≠ src.key) ∧
    (∀ e ∈ R, e.1 ≠ src.key →
      (message_sends (message_handler R src m).2).count (e.1, m) = 1) ∧
    ((message_handler R src m).2.all (fun a => !a.isError)) = true := by
  have hp : m.opcode ≠ PING_FRAME := by
    rcases hop with h | h <;> rw [h] <;> decide
  have hq : m.opcode ≠ PONG_FRAME := by
    rcases hop with h | h <;> rw [h] <;> decide
  have hc : m.opcode ≠ CONNECTION_CLOSE_FRAME := by
    rcases hop with h | h <;> rw [h] <;> decide
  have h1 := message_handler_else R src m hp hq hc
  have hsends : message_sends (message_handler R src m).2
      = (R.filter (fun e => e.1 != src.key)).map (fun e => (e.1, m)) := by
    rw [h1, message_sends_cons_log, message_sends_map_send]
  have hcnt1 : R.countP (fun e => e.1 == src.key) = 1 := by
    refine countP_eq_one_of_key hnd hmem ?_ ?_
    · simp
    · intro a _ hpa
      exact eq_of_beq hpa
  have hlen : (R.filter (fun e => e.1 != src.key)).length = R.length - 1 := by
    have hsum := countP_bne_add R src.key
    rw [hcnt1] at hsum
    rw [← List.countP_eq_length_filter]
    omega
  refine ⟨by rw [h1], hsends, ?_, ?_, ?_, ?_⟩
  · rw [hsends, List.length_map]
    exact hlen
  · intro p hp'
    rw [hsends] at hp'
    obtain ⟨e, he, rfl⟩ := List.mem_map.mp hp'
    have hbne := (List.mem_filter.mp he).2
    simpa using hbne
  · intro e he hne
    rw [hsends, List.count_eq_countP, List.countP_map, List.countP_filter]
    refine countP_eq_one_of_key hnd he ?_ ?_
    · simp [Function.comp, hne]
    · intro a _ hpa
      simp only [Function.comp] at hpa
      rw [Bool.and_eq_true] at hpa
      have h3 : (a.1, m) = (e.1, m) := eq_of_beq hpa.1
      rw [Prod.mk.injEq] at h3
      exact h3.1
  · rw [h1]
    simp only [List.all_cons, Bool.and_eq_true, List.all_eq_true]
    refine ⟨rfl, ?_⟩
    intro a ha
    obtain ⟨e, _, rfl⟩ := List.mem_map.mp ha
    rfl

/-- Witness for `broadcast_exactly_others`: session `a` broadcasts a
Text frame in a three-member registry — both other sessions receive it,
and the relay count is two. -/
theorem broadcast_exactly_others_witness :
    (message_handler [("a", ⟨"a", true⟩), ("b", ⟨"b", true⟩),
        ("c", ⟨"c", true⟩)] ⟨"a", true⟩ ⟨TEXT_FRAME, [104]⟩).1
      = [("a", ⟨"a", true⟩), ("b", ⟨"b", true⟩), ("c", ⟨"c", true⟩)] ∧
    (message_sends (message_handler [("a", ⟨"a", true⟩), ("b", ⟨"b", true⟩),
        ("c", ⟨"c", true⟩)] ⟨"a", true⟩ ⟨TEXT_FRAME, [104]⟩).2).length
      = [("a", (⟨"a", true⟩ : WebSocket)), ("b", ⟨"b", true⟩),
         ("c", ⟨"c", true⟩)].length - 1 ∧
    (message_sends (message_handler [("a", ⟨"a", true⟩), ("b", ⟨"b", true⟩),
        ("c", ⟨"c", true⟩)] ⟨"a", true⟩
        ⟨TEXT_FRAME, [104]⟩).2).count ("b", ⟨TEXT_FRAME, [104]⟩) = 1 := by
  have h := broadcast_exactly_others
    [("a", ⟨"a", true⟩), ("b", ⟨"b", true⟩), ("c", ⟨"c", true⟩)]
    ⟨"a", true⟩ ⟨TEXT_FRAME, [104]⟩ (by decide) (by decide) (Or.inl rfl)
  exact ⟨h.1, h.2.2.1,
    h.2.2.2.2.1 ("b", ⟨"b", true⟩) (by decide) (by decide)⟩

/-- C4: the code cannot guarantee the claimed exactly-once keepalive
accounting — on a registry holding the open session `a` and the non-open
session `b`, the sweep reaches line 102 and passes `b` to
`sockets.erase`, and `b` is a live member of the very map the
range-`for` is traversing (no snapshot is taken), so the per-entry
effects rest on an invalidated `std::map` iterator. -/
theorem keepalive_erase_hits_live_map :
    ping_sweep_erased_keys [("a", ⟨"a", true⟩), ("b", ⟨"b", false⟩)]
      = ["b"] ∧
    ping_sweep_erases_while_iterating
        [("a", ⟨"a", true⟩), ("b", ⟨"b", false⟩)] = true ∧
    ("b", (⟨"b", false⟩ : WebSocket))
      ∈ [("a", ⟨"a", true⟩), ("b", ⟨"b", false⟩)] := by
  refine ⟨rfl, rfl, by decide⟩

/-- Witness for `non_control_frames_broadcast`: a frame with reserved
opcode 3 from session `a` is relayed to the other registered session. -/
theorem non_control_frames_broadcast_witness :
    message_sends (message_handler [("a", ⟨"a", true⟩), ("b", ⟨"b", true⟩)]
        ⟨"a", true⟩ ⟨3, [7]⟩).2
      = [("b", (⟨3, [7]⟩ : WebSocketMessage))] := by
  have h := (non_control_frames_broadcast
    [("a", ⟨"a", true⟩), ("b", ⟨"b", true⟩)] ⟨"a", true⟩ ⟨3, [7]⟩
    (by decide) (by decide) (by decide)).2.1
  rw [h]
  rfl

end WebSocketExample
